import Mathlib

/-!
Verification of the weather-lookup click handler in `src/script.js`.

The script registers one click handler. On click it reads the city input,
builds a request URL around a hardcoded API key, issues one `fetch`, and
renders either a success fragment (heading plus temperature and description
lines) or a red error paragraph into the `weatherResult` element.

We shallowly embed the handler: JavaScript values reachable in this program
are modelled by `JSVal`, property access (which can throw a TypeError on
`undefined`/`null`) by `getProp` into `Except`, and the promise chain by a
total function from the fetch outcome to the string assigned to
`innerHTML`.
-/

namespace WeatherApp

/-- JavaScript values that can flow through this script: the result of
`response.json()` (any JSON value) together with `undefined`, which arises
from reading an absent property. Numbers are carried in their JavaScript
string form, since the script only ever stringifies them via template
interpolation. -/
inductive JSVal where
  | undefined : JSVal
  | null : JSVal
  | bool : Bool → JSVal
  | num : String → JSVal
  | str : String → JSVal
  | obj : List (String × JSVal) → JSVal
deriving Repr

/-- Message of the TypeError thrown when a property is read on `undefined`
(engine-dependent wording; modelled after the common
"Cannot read properties of undefined (reading k)" form). -/
def undefinedReadMsg (k : String) : String :=
  "Cannot read properties of undefined (reading " ++ k ++ ")"

/-- Message of the TypeError thrown when a property is read on `null`. -/
def nullReadMsg (k : String) : String :=
  "Cannot read properties of null (reading " ++ k ++ ")"

/-- JavaScript property access `v.k`: throws a TypeError on `undefined` and
`null`, returns the named field of an object (or `undefined` when absent),
and returns `undefined` for properties this script reads on other
primitives. -/
def getProp : JSVal → String → Except String JSVal
  | .undefined, k => .error (undefinedReadMsg k)
  | .null, k => .error (nullReadMsg k)
  | .obj fields, k =>
      .ok (match fields.lookup k with
           | some v => v
           | none => .undefined)
  | _, _ => .ok .undefined

/-- JavaScript string conversion as performed by template-literal
interpolation, `${v}`. -/
def jsToString : JSVal → String
  | .undefined => "undefined"
  | .null => "null"
  | .bool b => if b then "true" else "false"
  | .num s => s
  | .str s => s
  | .obj _ => "[object Object]"

/-- The hardcoded API key from `script.js` line 3. -/
def apiKey : String := "141623457ed8473b88b145446242110"

/-- The request URL built on `script.js` line 4: a template literal that
interpolates the key and the raw city string, with no percent-encoding. -/
def buildUrl (city : String) : String :=
  "https://api.weatherapi.com/v1/current.json?key=" ++ apiKey ++ "&q="
    ++ city ++ "&aqi=no"

/-- An HTTP request as issued by `fetch`. -/
structure Request where
  method : String
  url : String
  reqBody : Option String
  headers : List (String × String)
deriving Repr, DecidableEq

/-- The request issued by `fetch(url)` on line 6: a bare GET, so no body and
no custom headers. -/
def requestFor (city : String) : Request :=
  { method := "GET", url := buildUrl city, reqBody := none, headers := [] }

/-- The part of a settled `fetch` response the script consumes:
`response.ok` and the result of `response.json()` (a parsed value, or the
message of the parse rejection). -/
structure Resp where
  ok : Bool
  jsonBody : Except String JSVal
deriving Repr

/-- Outcome of the `fetch` call: either the network-level failure that
rejects the fetch promise (with its message), or a response. -/
inductive FetchOutcome where
  | networkError : String → FetchOutcome
  | response : Resp → FetchOutcome
deriving Repr

/-- The success fragment built on lines 16–20 of `script.js`, whitespace
included: a template literal with a heading and two paragraph lines. -/
def successFragment (nm country temp desc : String) : String :=
  "\n                <h2>Weather in " ++ nm ++ ", " ++ country
    ++ "</h2>\n                <p>Temperature: " ++ temp
    ++ " °C</p>\n                <p>Description: " ++ desc
    ++ "</p>\n            "

/-- The error fragment built on line 24: a red paragraph holding the
error's message verbatim. -/
def errorFragment (msg : String) : String :=
  "<p style=\"color: red;\">" ++ msg ++ "</p>"

/-- The body of the second `.then` (lines 13–21), in source evaluation
order: `data.current.condition.text`, then `data.current.temp_c`, then the
template interpolations `data.location.name` and `data.location.country`.
Any property access on `undefined`/`null` throws, which surfaces here as
`.error`. -/
def renderData (data : JSVal) : Except String String := do
  let current1 ← getProp data "current"
  let cond ← getProp current1 "condition"
  let weatherDescription ← getProp cond "text"
  let current2 ← getProp data "current"
  let temperature ← getProp current2 "temp_c"
  let loc1 ← getProp data "location"
  let nm ← getProp loc1 "name"
  let loc2 ← getProp data "location"
  let country ← getProp loc2 "country"
  .ok (successFragment (jsToString nm) (jsToString country)
        (jsToString temperature) (jsToString weatherDescription))

/-- The promise chain of lines 6–22 before the `.catch`: `.error msg` means
the chain is rejected with an error whose message is `msg`; `.ok s` means
it reached the `innerHTML` assignment on line 21 with fragment `s`. The
first `.then` throws `Error("City not found")` when `response.ok` is false,
else forwards `response.json()`. -/
def chainBeforeCatch : FetchOutcome → Except String String
  | .networkError msg => .error msg
  | .response r =>
      if !r.ok then .error "City not found"
      else
        match r.jsonBody with
        | .error msg => .error msg
        | .ok data => renderData data

/-- The whole chain including the `.catch` of lines 23–25: `.error` would
mean an uncaught rejection escaping the handler; the catch converts every
rejection into the error fragment, so the result is always `.ok` with the
string assigned to `weatherResult.innerHTML`. -/
def chainAfterCatch (outcome : FetchOutcome) : Except String String :=
  match chainBeforeCatch outcome with
  | .ok s => .ok s
  | .error msg => .ok (errorFragment msg)

/-- The string the handler writes to `weatherResult.innerHTML` for a given
fetch outcome. -/
def getWeatherHandler (outcome : FetchOutcome) : String :=
  match chainAfterCatch outcome with
  | .ok s => s
  | .error s => s

/-- The page state the script touches: the `city` input's value and the
`weatherResult` element's `innerHTML`. -/
structure PageState where
  cityValue : String
  weatherResult : String
deriving Repr, DecidableEq

/-- One click triggering: the request issued from the input's current value
(line 2 reads it fresh; lines 4–6 build the URL and fetch it once). -/
def triggerRequest (st : PageState) : Request :=
  requestFor st.cityValue

/-- The list of fetch calls issued by one run of the click handler: the
body contains exactly the single `fetch(url)` on line 6. -/
def issuedRequests (st : PageState) : List Request :=
  [triggerRequest st]

/-- The handler's effect on page state once the fetch outcome settles: only
`weatherResult.innerHTML` is assigned (line 21 or line 24). -/
def runHandler (st : PageState) (outcome : FetchOutcome) : PageState :=
  { st with weatherResult := getWeatherHandler outcome }

/-- The value the click listener function returns to its caller: the
function body has no `return` statement, so it returns `undefined`. -/
def handlerReturnValue : JSVal := JSVal.undefined

/-- The four fields the script projects out of a successful response. -/
structure WeatherReading where
  nm : String
  country : String
  tempC : String
  conditionText : String
deriving Repr, DecidableEq

/-- A service response body holding the four projected fields in the shape
the script expects (`location.name`, `location.country`, `current.temp_c`,
`current.condition.text`). -/
def readingToJson (w : WeatherReading) : JSVal :=
  .obj [("location", .obj [("name", .str w.nm), ("country", .str w.country)]),
        ("current", .obj [("temp_c", .num w.tempC),
                          ("condition", .obj [("text", .str w.conditionText)])])]

/-- Every value the chain reaches line 21 with is a success fragment: the
only `.ok` result `renderData` can produce is the interpolated template of
lines 16–20. -/
theorem renderData_ok_shape (data : JSVal) (s : String)
    (h : renderData data = .ok s) :
    ∃ nm country temp desc, s = successFragment nm country temp desc := by
  simp only [renderData, bind, Except.bind] at h
  repeat' split at h
  all_goals simp_all
  exact ⟨_, _, _, _, h.symm⟩

/-- C1: when the response status is success and the body parses into the
expected shape, the handler writes the success fragment — heading
"Weather in \x7bname\x7d, \x7bcountry\x7d" plus the temperature and
description lines — with each projected field appearing verbatim. -/
theorem success_response_renders_fields_verbatim (w : WeatherReading) :
    getWeatherHandler (.response ⟨true, .ok (readingToJson w)⟩)
      = "\n                <h2>Weather in " ++ w.nm ++ ", " ++ w.country
          ++ "</h2>\n                <p>Temperature: " ++ w.tempC
          ++ " °C</p>\n                <p>Description: " ++ w.conditionText
          ++ "</p>\n            " := by
  rfl

/-- C2: a completed response with a non-success status renders exactly the
error fragment "City not found"; the response body is universally
quantified, so the result does not depend on it and the actual cause of
the failure status is irrelevant. -/
theorem non_ok_status_renders_city_not_found (jsonBody : Except String JSVal) :
    getWeatherHandler (.response ⟨false, jsonBody⟩)
      = errorFragment "City not found" := by
  rfl

/-- C3: a network-level fetch failure and a body-parsing failure both
render the error fragment carrying the failure's own message verbatim,
through the same `errorFragment` rendering. -/
theorem transport_and_parse_failures_render_message (msg : String) :
    getWeatherHandler (.networkError msg) = errorFragment msg
      ∧ getWeatherHandler (.response ⟨true, .error msg⟩) = errorFragment msg := by
  exact ⟨rfl, rfl⟩

/-- C4: every triggering issues a GET to the weather endpoint whose query
string is exactly `key=` the static credential, `q=` the raw query string
with no percent-encoding, and `aqi=no`, with no body and no headers. -/
theorem request_is_get_with_raw_query (city : String) :
    requestFor city
      = { method := "GET",
          url := "https://api.weatherapi.com/v1/current.json?key=141623457ed8473b88b145446242110&q="
                   ++ city ++ "&aqi=no",
          reqBody := none,
          headers := [] } := by
  rfl

/-- C5: each completed request writes exactly one fragment — a success
fragment or an error fragment — and the write replaces the output
element's previous contents entirely (the new contents do not depend on
the old page state, so no concatenation of two results can occur). -/
theorem output_is_exactly_one_fragment (st : PageState) (outcome : FetchOutcome) :
    (runHandler st outcome).weatherResult = getWeatherHandler outcome
      ∧ ((∃ msg, getWeatherHandler outcome = errorFragment msg)
          ∨ (∃ nm country temp desc,
               getWeatherHandler outcome = successFragment nm country temp desc)) := by
  refine ⟨rfl, ?_⟩
  cases outcome with
  | networkError msg => exact .inl ⟨msg, rfl⟩
  | response r =>
      rcases r with ⟨ok, jsonBody⟩
      cases ok with
      | false => exact .inl ⟨"City not found", rfl⟩
      | true =>
          cases jsonBody with
          | error msg => exact .inl ⟨msg, rfl⟩
          | ok data =>
              cases h : renderData data with
              | error msg =>
                  refine .inl ⟨msg, ?_⟩
                  simp [getWeatherHandler, chainAfterCatch, chainBeforeCatch, h]
              | ok s =>
                  rcases renderData_ok_shape data s h with ⟨nm, country, temp, desc, hs⟩
                  refine .inr ⟨nm, country, temp, desc, ?_⟩
                  simpa [getWeatherHandler, chainAfterCatch, chainBeforeCatch, h] using hs

/-- C6: the query is the input field's value at trigger time and is
embedded into the request URL verbatim — the URL is a fixed head, the raw
value, then a fixed tail — for every string, including empty, whitespace,
or malformed ones; no validation or normalization intervenes. -/
theorem query_embedded_verbatim (st : PageState) :
    (triggerRequest st).url
      = "https://api.weatherapi.com/v1/current.json?key=141623457ed8473b88b145446242110&q="
          ++ st.cityValue ++ "&aqi=no" := by
  rfl

/-- C7: one run issues exactly one fetch; every rejection of the chain is
absorbed by the single catch — the post-catch chain always resolves, so no
failure escapes the handler — and a rejection with message `msg` resolves
to the error fragment for `msg`. -/
theorem all_failures_caught_single_fetch (st : PageState) (outcome : FetchOutcome) :
    (issuedRequests st).length = 1
      ∧ (∃ s, chainAfterCatch outcome = .ok s)
      ∧ (∀ msg, chainBeforeCatch outcome = .error msg →
          getWeatherHandler outcome = errorFragment msg) := by
  refine ⟨rfl, ?_, ?_⟩
  · cases h : chainBeforeCatch outcome with
    | ok s => exact ⟨s, by simp [chainAfterCatch, h]⟩
    | error msg => exact ⟨errorFragment msg, by simp [chainAfterCatch, h]⟩
  · intro msg h
    simp [getWeatherHandler, chainAfterCatch, h]

/-- C7 witness: at a concrete failing outcome the chain resolves and the
catch converts the rejection into the error fragment. -/
theorem all_failures_caught_single_fetch_witness :
    (∃ s, chainAfterCatch (.networkError "boom") = .ok s)
      ∧ getWeatherHandler (.networkError "boom") = errorFragment "boom" := by
  have h := all_failures_caught_single_fetch ⟨"Paris", ""⟩ (.networkError "boom")
  exact ⟨h.2.1, h.2.2 "boom" rfl⟩

/-- C8: the listener returns `undefined` to its caller, and running the
handler changes nothing in the page state except the output element: the
input field's value is preserved and the whole new state is the old one
with only `weatherResult` replaced. -/
theorem handler_returns_nothing_and_touches_only_output
    (st : PageState) (outcome : FetchOutcome) :
    handlerReturnValue = JSVal.undefined
      ∧ (runHandler st outcome).cityValue = st.cityValue
      ∧ runHandler st outcome
          = { st with weatherResult := getWeatherHandler outcome } := by
  exact ⟨rfl, rfl, rfl⟩

/-- C9: when the body parses but the object lacks the `current` field, the
first projection `data.current.condition.text` reads a property of
`undefined`; the resulting TypeError is absorbed by the top-level catch
and its message becomes the error fragment. Likewise, a body with a
well-formed `current` but no `location` fails at `data.location.name` and
renders that TypeError's message. -/
theorem missing_field_error_is_caught (fields : List (String × JSVal))
    (t d : String) (h : fields.lookup "current" = none) :
    getWeatherHandler (.response ⟨true, .ok (.obj fields)⟩)
      = errorFragment (undefinedReadMsg "condition")
      ∧ getWeatherHandler
          (.response ⟨true, .ok (.obj
            [("current", .obj [("temp_c", .num t),
                               ("condition", .obj [("text", .str d)])])])⟩)
        = errorFragment (undefinedReadMsg "name") := by
  constructor
  · simp [getWeatherHandler, chainAfterCatch, chainBeforeCatch, renderData,
          getProp, h, bind, Except.bind]
  · rfl

/-- C9 witness: a parsed empty object renders the TypeError message for
the missing `current` chain. -/
theorem missing_field_error_is_caught_witness :
    ([] : List (String × JSVal)).lookup "current" = none
      ∧ getWeatherHandler (.response ⟨true, .ok (.obj [])⟩)
          = errorFragment (undefinedReadMsg "condition") := by
  exact ⟨rfl, (missing_field_error_is_caught [] "18" "Clear" rfl).1⟩

/-- C10: markup inside a failure message, or inside a response field, is
interpolated into the `innerHTML` string unescaped — the output equals a
string in which the tags appear verbatim, so `innerHTML` will parse them
as markup rather than show them as text. -/
theorem markup_interpolated_unescaped :
    getWeatherHandler (.networkError "<img src=x>")
      = "<p style=\"color: red;\"><img src=x></p>"
      ∧ getWeatherHandler
          (.response ⟨true, .ok (readingToJson ⟨"<b>Paris</b>", "France", "18", "Clear"⟩)⟩)
        = "\n                <h2>Weather in <b>Paris</b>, France</h2>\n                <p>Temperature: 18 °C</p>\n                <p>Description: Clear</p>\n            " := by
  exact ⟨rfl, rfl⟩

end WeatherApp
